import Mathlib

/-!
Shallow embedding of the transport-negotiation client of
`prediAgent/short_Term_Stock_Predictor` (files `A2AStockForcasterClient.py`
and `A2AStockPredictionTool.py`).

JSON values (the payloads the client sends and receives) are modelled by
`Json`; numbers are rationals, which covers the ints and decimal floats the
code compares.  The HTTP world is an oracle (`Network`): a response or a
`requests` exception for each request the client can issue.  Python-level
exceptions that the code does not catch (AttributeError from `.upper()` on a
non-string, TypeError from iterating or hashing unhashable values) are made
explicit with `Except PyExn`.
-/

/-- A JSON value, as produced by `response.json()` in the Python client.
`null` doubles as Python `None` (which is what `json` decodes `null` to,
and what `dict.get` returns for a missing key). -/
inductive Json where
  | null
  | bool (b : Bool)
  | num (q : ℚ)
  | str (s : String)
  | arr (elems : List Json)
  | obj (fields : List (String × Json))
deriving Repr

/-- Python truthiness (`bool(x)`) on JSON-decoded values. -/
def pyTruthy : Json → Bool
  | .null => false
  | .bool b => b
  | .num q => decide (q ≠ 0)
  | .str s => decide (s ≠ "")
  | .arr xs => !xs.isEmpty
  | .obj fs => !fs.isEmpty

/-- Python hashability: every JSON scalar is hashable, lists and dicts are
not (putting them in a `set` raises TypeError). -/
def pyHashable : Json → Bool
  | .arr _ => false
  | .obj _ => false
  | _ => true

/-- Python `==` restricted to hashable JSON scalars — the only values the
client's `seen` set ever receives (unhashable candidates raise TypeError
before any equality test).  Python compares booleans and numbers
numerically (`True == 1`, `1 == 1.0`); strings compare only to strings. -/
def pyEqHashable : Json → Json → Bool
  | .null, .null => true
  | .bool a, .bool b => a == b
  | .bool a, .num q => decide ((if a then (1 : ℚ) else 0) = q)
  | .num q, .bool b => decide (q = (if b then (1 : ℚ) else 0))
  | .num a, .num b => decide (a = b)
  | .str a, .str b => a == b
  | _, _ => false

/-- Uncaught Python exceptions the client code can raise. -/
inductive PyExn where
  | attributeError
  | typeError
  | keyError
deriving DecidableEq, Repr

/-- `d.get(k, dflt)`: AttributeError unless `d` is a dict; the default is
used only when the key is absent. -/
def pyGetD (j : Json) (k : String) (dflt : Json) : Except PyExn Json :=
  match j with
  | .obj fs => .ok ((fs.lookup k).getD dflt)
  | _ => .error .attributeError

/-- `d.get(k)` (default `None`). -/
def pyGet (j : Json) (k : String) : Except PyExn Json := pyGetD j k .null

/-- `s.upper()` on the character list (ASCII-wise, which covers the
transport names the code compares). -/
def strUpper (s : String) : String := String.mk (s.data.map Char.toUpper)

/-- `v.upper()`: AttributeError unless the value is a string. -/
def pyUpper : Json → Except PyExn String
  | .str s => .ok (strUpper s)
  | _ => .error .attributeError

/-- `for x in v`: lists yield their elements, strings their characters,
dicts their keys; any other value raises TypeError. -/
def pyIter : Json → Except PyExn (List Json)
  | .arr xs => .ok xs
  | .str s => .ok (s.toList.map fun c => .str (String.singleton c))
  | .obj fs => .ok (fs.map fun kv => .str kv.1)
  | _ => .error .typeError

/-- `"k" in v` for a string literal key: key test on dicts, `==`-based
element test on lists, substring test on strings, TypeError otherwise. -/
def pyContainsStr (container : Json) (k : String) : Except PyExn Bool :=
  match container with
  | .obj fs => .ok (fs.any fun kv => kv.1 == k)
  | .arr xs => .ok (xs.any fun x => pyEqHashable x (.str k))
  | .str s => .ok (decide (k.data <:+: s.data))
  | _ => .error .typeError

/-- `v["k"]` for a string literal key: dict lookup (KeyError when absent);
lists and strings take integer indices only, so a string index raises
TypeError, as does any other value. -/
def pyIndex (j : Json) (k : String) : Except PyExn Json :=
  match j with
  | .obj fs =>
    match fs.lookup k with
    | some v => .ok v
    | none => .error .keyError
  | _ => .error .typeError

/-! The HTTP world -/

/-- One HTTP response as `requests` presents it: the status code, the parsed
JSON body when `resp.json()` succeeds (`none` = body is not valid JSON), and
the raw `resp.text`. -/
structure HttpResponse where
  status : Nat
  body : Option Json
  text : String
deriving Repr

/-- Outcome of one `requests` call: a response, or a raised
`requests.exceptions.RequestException` (connection refused, timeout, ...). -/
inductive HttpOutcome where
  | resp (r : HttpResponse)
  | exn
deriving Repr

/-- The network oracle for one `get_stock_prediction` invocation: the
outcome of the agent-card GET, of the JSON-RPC POST for each method value
(each method is POSTed at most once), and of the `/invoke` POST (issued at
most once). -/
structure Network where
  card : HttpOutcome
  rpc : Json → HttpOutcome
  invoke : HttpOutcome

/-- An HTTP request as issued by the client, with its full JSON payload. -/
inductive Request where
  | get (url : String)
  | post (url : String) (payload : Json)
deriving Repr

/-! Constants and request shapes (`A2AStockForcasterClient.py`) -/

def AGENT_URL : String := "http://127.0.0.1:8002"

def INVOKE_PATH : String := "/invoke"

def AGENT_CARD_PATH : String := "/.well-known/agent-card.json"

/-- Python `s.rstrip("/")`. -/
def rstripSlash (s : String) : String :=
  String.mk ((s.data.reverse.dropWhile (· == '/')).reverse)

/-- Line 19: `base = AGENT_URL.rstrip("/")`. -/
def baseAddr : String := rstripSlash AGENT_URL

def cardUrl : String := baseAddr ++ AGENT_CARD_PATH

def rpcUrl : String := baseAddr ++ "/"

def invokeUrl : String := baseAddr ++ INVOKE_PATH

def cardRequest : Request := .get cardUrl

/-- Lines 58-63: the JSON-RPC 2.0 envelope, arguments nested under
`tool_inputs.short_term_predict`. -/
def rpcEnvelope (method : Json) (ticker : String) : Json :=
  .obj [("jsonrpc", .str "2.0"),
        ("method", method),
        ("params", .obj [("tool_inputs",
            .obj [("short_term_predict", .obj [("ticker", .str ticker)])])]),
        ("id", .num 1)]

def rpcRequest (method : Json) (ticker : String) : Request :=
  .post rpcUrl (rpcEnvelope method ticker)

/-- Lines 14-17 / 96 / 116: the flat `/invoke` action payload. -/
def invokePayload (ticker : String) : Json :=
  .obj [("action", .str "short_term_predict"),
        ("kwargs", .obj [("ticker", .str ticker)])]

def invokeRequest (ticker : String) : Request := .post invokeUrl (invokePayload ticker)

/-- `resp.raise_for_status()` raises `HTTPError` exactly for client and
server error codes, 400-599. -/
def raisesForStatus (status : Nat) : Bool := decide (400 ≤ status ∧ status < 600)

/-! `get_stock_prediction` (`A2AStockForcasterClient.py`, lines 8-148) -/

/-- Lines 22-36: fetch the agent card; any `RequestException`, non-200
status, or undecodable body leaves the card absent. -/
def fetchAgentCard (net : Network) : Option Json :=
  match net.card with
  | .exn => none
  | .resp r => if r.status = 200 then r.body else none

/-- Lines 57-72, `call_jsonrpc`: POST the envelope; a `RequestException`
(including the `HTTPError` from `raise_for_status` on a 4xx/5xx and the
`requests` `JSONDecodeError` on an unparsable body) is caught and yields
`None`; otherwise the parsed JSON body is returned. -/
def call_jsonrpc (net : Network) (method : Json) : Option Json :=
  match net.rpc method with
  | .exn => none
  | .resp r => if raisesForStatus r.status then none else r.body

/-- Lines 83-88: a parsed JSON-RPC reply that sends the probe loop to the
next candidate: a dict whose truthy `error` value is itself a dict whose
`code` equals `-32601`. -/
def isMethodNotFound (j : Json) : Bool :=
  match j with
  | .obj fs =>
    match fs.lookup "error" with
    | some e =>
      pyTruthy e &&
        (match e with
         | .obj efs =>
           (match efs.lookup "code" with
            | some (.num q) => decide (q = -32601)
            | _ => false)
         | _ => false)
    | none => false
  | _ => false

/-- Lines 74-91: probe the candidate methods in order, returning the
JSON-RPC POSTs issued and the first accepted reply. -/
def probe (net : Network) (ticker : String) : List Json → List Request × Option Json
  | [] => ([], none)
  | m :: ms =>
    if pyTruthy m then
      match call_jsonrpc net m with
      | none =>
        let rest := probe net ticker ms
        (rpcRequest m ticker :: rest.1, rest.2)
      | some j =>
        if isMethodNotFound j then
          let rest := probe net ticker ms
          (rpcRequest m ticker :: rest.1, rest.2)
        else ([rpcRequest m ticker], some j)
    else probe net ticker ms

/-- A raw wire result: parsed JSON, or (for a kept response whose body is
not valid JSON) the raw text. -/
abbrev RawResult := Json ⊕ String

/-- Lines 96-112 (identical to lines 116-132): POST the action payload to
`/invoke`; 404 and caught request errors leave the result absent; otherwise
the parsed body, or the raw text when the body is not valid JSON. -/
def callInvoke (net : Network) : Option RawResult :=
  match net.invoke with
  | .exn => none
  | .resp r =>
    if r.status = 404 then none
    else if raisesForStatus r.status then none
    else
      match r.body with
      | some j => some (.inl j)
      | none => some (.inr r.text)

/-- Lines 46-51: the candidate values a single skill entry contributes —
`name` and `id` for a dict entry, the entry itself otherwise. -/
def skillCandidates : Json → List Json
  | .obj fs => [((fs.lookup "name").getD .null), ((fs.lookup "id").getD .null)]
  | s => [s]

/-- Line 55's dedup-by-`set`: drop candidates already seen, raising
TypeError on an unhashable candidate (as `c in seen` does). -/
def dedupeSeen (seen : List Json) : List Json → Except PyExn (List Json)
  | [] => .ok []
  | c :: cs =>
    if pyHashable c = false then .error .typeError
    else if seen.any (pyEqHashable c) then dedupeSeen seen cs
    else do
      let rest ← dedupeSeen (c :: seen) cs
      .ok (c :: rest)

/-- Lines 43-55: derive the method-candidate list from the card —
`"model"`, the card's `name`, then each skill's contributions, filtered for
truthiness and de-duplicated keeping first occurrences. -/
def buildCandidates (card : Json) : Except PyExn (List Json) := do
  let skillsVal ← pyGet card "skills"
  let nameVal ← pyGet card "name"
  let skills ← pyIter (if pyTruthy skillsVal then skillsVal else .arr [])
  let raw := Json.str "model" :: nameVal :: skills.flatMap skillCandidates
  dedupeSeen [] (raw.filter pyTruthy)

/-- Lines 22-55: from the fetched card, either go straight to `/invoke`
(`some card` falsy, or `preferredTransport.upper() ≠ "JSONRPC"`), or probe
JSON-RPC with the derived candidates; a malformed card surfaces the
uncaught Python exception. -/
def decideRoute (agentCard : Option Json) : Except PyExn (Option (List Json)) :=
  match agentCard with
  | none => .ok none
  | some card =>
    if pyTruthy card then do
      let pt ← pyGetD card "preferredTransport" (.str "")
      let ptU ← pyUpper pt
      if ptU = "JSONRPC" then
        let cands ← buildCandidates card
        .ok (some cands)
      else .ok none
    else .ok none

/-- `get_stock_prediction` (lines 8-136): the whole negotiation run, as the
list of HTTP requests issued and the raw `result` in scope at line 134;
`.error e` marks an uncaught Python exception aborting the call. -/
def get_stock_prediction (net : Network) (ticker : String) :
    List Request × Except PyExn (Option RawResult) :=
  match decideRoute (fetchAgentCard net) with
  | .error e => ([cardRequest], .error e)
  | .ok none => ([cardRequest, invokeRequest ticker], .ok (callInvoke net))
  | .ok (some cands) =>
    let pr := probe net ticker cands
    match pr.2 with
    | some j => (cardRequest :: pr.1, .ok (some (.inl j)))
    | none => (cardRequest :: (pr.1 ++ [invokeRequest ticker]), .ok (callInvoke net))

/-- Lines 138-148 (the same selection as `A2AStockPredictionTool` lines
27-32): unwrap the `result` sub-value, else the `output` sub-value, else
pass the value through unchanged; non-dict results pass through. -/
def normalizeRaw : RawResult → RawResult
  | .inl (.obj fs) =>
    (match fs.lookup "result" with
     | some v => .inl v
     | none =>
       match fs.lookup "output" with
       | some v => .inl v
       | none => .inl (.obj fs))
  | r => r

inductive FailureKind where
  | unavailable
deriving DecidableEq, Repr

/-- The spec's `InvocationResult`: a typed failure or a normalized payload. -/
inductive InvocationResult where
  | failure (kind : FailureKind) (msg : String)
  | success (payload : RawResult)

/-- Lines 134-148 as the spec's result contract: an absent raw result is
the `Unavailable` failure (the code signals it with the "No usable
response" diagnostic and an early return), and a present one is the
normalized success payload printed at lines 139-148. -/
def invocationOutcome (net : Network) (ticker : String) :
    List Request × Except PyExn InvocationResult :=
  let run := get_stock_prediction net ticker
  (run.1, run.2.map fun r =>
    match r with
    | none => .failure .unavailable "no usable response"
    | some raw => .success (normalizeRaw raw))

/-! `get_a2a_short_term_prediction` (`A2AStockPredictionTool.py`) -/

/-- One POST by the tool to `/invoke`.  The `str()` texts of the
exceptions the handlers interpolate into their messages (`HTTPError` from
`raise_for_status`, the `requests` `JSONDecodeError` from an unparsable
body, any other `RequestException`) are carried as oracle data. -/
inductive ToolPostOutcome where
  | resp (r : HttpResponse) (httpErrStr : String) (decodeErrStr : String)
  | connectionError
  | otherError (msg : String)

/-- Lines 14-17 of the tool: the flat action payload with the upper-cased
ticker. -/
def toolPayload (t : String) : Json :=
  .obj [("action", .str "short_term_predict"),
        ("kwargs", .obj [("ticker", .str (strUpper t))])]

def toolUrl : String := AGENT_URL ++ INVOKE_PATH

/-- Lines 26-32 of the tool: unwrap `result`/`output` using Python `in`
(which can raise TypeError on a non-container body) and indexing. -/
def toolNormalize (j : Json) : Except PyExn Json := do
  let hasRes ← pyContainsStr j "result"
  if hasRes then pyIndex j "result"
  else do
    let hasOut ← pyContainsStr j "output"
    if hasOut then pyIndex j "output"
    else .ok j

def invalidTickerMsg : String := "Invalid ticker provided. Must be a non-empty string."

/-- `get_a2a_short_term_prediction` (tool lines 8-41): the requests issued
and the returned value.  A falsy or non-string ticker returns the error
dict before any HTTP request; `ConnectionError`, `HTTPError` (4xx/5xx),
other `RequestException`s and JSON decode failures each return their error
dict; otherwise the parsed body is unwrapped. -/
def get_a2a_short_term_prediction (net : ToolPostOutcome) (ticker : Json) :
    List Request × Except PyExn Json :=
  if pyTruthy ticker = false then
    ([], .ok (.obj [("error", .str invalidTickerMsg)]))
  else
    match ticker with
    | .str t =>
      ([Request.post toolUrl (toolPayload t)],
        match net with
        | .connectionError =>
          .ok (.obj [("error", .str ("Connection failed. Is the agent server running at "
                 ++ AGENT_URL ++ "?"))])
        | .otherError m =>
          .ok (.obj [("error", .str ("An unexpected error occurred: " ++ m))])
        | .resp r he de =>
          if raisesForStatus r.status then
            .ok (.obj [("error", .str ("HTTP error occurred: " ++ he
                   ++ ". Server response: " ++ r.text))])
          else
            match r.body with
            | none => .ok (.obj [("error", .str ("An unexpected error occurred: " ++ de))])
            | some j => toolNormalize j)
    | _ => ([], .ok (.obj [("error", .str invalidTickerMsg)]))

/-! Concrete worlds for witnesses and counterexamples -/

/-- The scenario of spec §8: the card prefers JSON-RPC; method `"model"`
answers method-not-found, the agent name is unreachable, and the skill name
answers with a result. -/
def cardA : Json :=
  .obj [("preferredTransport", .str "jsonrpc"),
        ("name", .str "forecaster"),
        ("skills", .arr [.str "short_term_predict",
                          .obj [("name", .str "short_term_predict"), ("id", .str "stp")]])]

/-- The reply sent for method `"model"` in `netA`. -/
def notFoundReply : Json :=
  .obj [("jsonrpc", .str "2.0"),
        ("error", .obj [("code", .num (-32601)), ("message", .str "nf")]),
        ("id", .num 1)]

/-- The reply sent for method `"short_term_predict"` in `netA`. -/
def resultReply : Json := .obj [("result", .obj [("2024-01-02", .num 101)])]

def netA : Network :=
  { card := .resp ⟨200, some cardA, "card"⟩
    rpc := fun m =>
      match m with
      | .str "model" => .resp ⟨200, some notFoundReply, ""⟩
      | .str "short_term_predict" => .resp ⟨200, some resultReply, ""⟩
      | _ => .exn
    invoke := .exn }

/-- A world in which nothing answers at all. -/
def netDead : Network := { card := .exn, rpc := fun _ => .exn, invoke := .exn }

/-- A world whose card carries a numeric `preferredTransport`. -/
def netPtNum : Network :=
  { netDead with card := .resp ⟨200, some (.obj [("preferredTransport", .num 1)]), ""⟩ }

/-- A world whose card carries a null `preferredTransport`. -/
def netPtNull : Network :=
  { netDead with card := .resp ⟨200, some (.obj [("preferredTransport", .null)]), ""⟩ }

/-- A world whose `/invoke` endpoint answers 304 Not Modified with a JSON
body (`requests` does not follow 304, and `raise_for_status` only raises
for 400-599). -/
def net304 : Network :=
  { netDead with invoke := .resp ⟨304, some (.obj [("a", .num 1)]), "not-json-text"⟩ }

/-! The spec's data model for capability descriptors (§3)

`SkillRef` and `Descriptor` are the well-typed descriptors of spec §3; the
claimed `MethodCandidateList` construction is written out from the claim's
words (`specCandidates`) and compared with the code's `buildCandidates`. -/

/-- Spec §3 `SkillRef`: a bare string identifier or a record with optional
`name` and `id` fields. -/
inductive SkillRef where
  | bare (s : String)
  | record (nm : Option String) (id : Option String)

/-- Spec §3 `CapabilityDescriptor`, with optional fields encoded as absent
keys. -/
structure Descriptor where
  preferredTransport : Option String
  nm : Option String
  skills : List SkillRef

def SkillRef.toJson : SkillRef → Json
  | .bare s => .str s
  | .record n i =>
    .obj ((n.map fun s => ("name", Json.str s)).toList
      ++ (i.map fun s => ("id", Json.str s)).toList)

def Descriptor.toJson (d : Descriptor) : Json :=
  .obj ((d.preferredTransport.map fun s => ("preferredTransport", Json.str s)).toList
    ++ (d.nm.map fun s => ("name", Json.str s)).toList
    ++ [("skills", .arr (d.skills.map SkillRef.toJson))])

/-- The candidate sources, in order, each possibly absent: the literal
`"model"`, the descriptor's name, then each skill's name and id (a bare
skill contributing itself). -/
def optCandidates (d : Descriptor) : List (Option String) :=
  some "model" :: d.nm :: (d.skills.flatMap fun s =>
    match s with
    | .bare t => [some t]
    | .record n i => [n, i])

/-- The claim's raw sequence: `"model"`, the name, each skill's name and
id, skipping absent entries. -/
def specRawCandidates (d : Descriptor) : List String :=
  (optCandidates d).flatMap Option.toList

/-- Duplicate removal keeping only the first occurrence. -/
def firstDedupAux (seen : List String) : List String → List String
  | [] => []
  | a :: as =>
    if a ∈ seen then firstDedupAux seen as
    else a :: firstDedupAux (a :: seen) as

/-- The claim's `MethodCandidateList`: raw sequence, empty entries
discarded, first-occurrence de-duplication. -/
def specCandidates (d : Descriptor) : List String :=
  firstDedupAux [] ((specRawCandidates d).filter (· ≠ ""))


/-- The world of the exhaustion scenario: the card prefers JSON-RPC,
method `"model"` answers method-not-found, every other method fails at the
transport level, and `/invoke` answers with a result. -/
def netExhaust : Network :=
  { card := .resp ⟨200, some cardA, "card"⟩
    rpc := fun m =>
      match m with
      | .str "model" => .resp ⟨200, some notFoundReply, ""⟩
      | _ => .exn
    invoke := .resp ⟨200, some resultReply, "r"⟩ }

/-- A possibly-absent candidate source rendered the way the code sees it:
`dict.get` turns an absent field into `None`. -/
def optJson : Option String → Json
  | some s => .str s
  | none => .null

/-! Helper lemmas -/

theorem exceptOkBind {ε α β : Type} (a : α) (f : α → Except ε β) :
    (Except.ok a >>= f) = f a := rfl

theorem rpcUrl_ne_invokeUrl : rpcUrl ≠ invokeUrl := by decide

/-- Every element of the probe trace is the JSON-RPC POST of one of the
candidate methods. -/
theorem probe_trace_mem (net : Network) (ticker : String) :
    ∀ (cands : List Json) (req : Request), req ∈ (probe net ticker cands).1 →
      ∃ m ∈ cands, req = rpcRequest m ticker := by
  intro cands
  induction cands with
  | nil => intro req h; simp [probe] at h
  | cons m ms ih =>
    intro req h
    by_cases hm : pyTruthy m = true
    · cases hc : call_jsonrpc net m with
      | none =>
        simp only [probe, hm, if_true, hc, List.mem_cons] at h
        rcases h with h | h
        · exact ⟨m, List.mem_cons_self m ms, h⟩
        · obtain ⟨m', hm', hr⟩ := ih req h
          exact ⟨m', List.mem_cons_of_mem m hm', hr⟩
      | some j =>
        by_cases hj : isMethodNotFound j = true
        · simp only [probe, hm, if_true, hc, hj, List.mem_cons] at h
          rcases h with h | h
          · exact ⟨m, List.mem_cons_self m ms, h⟩
          · obtain ⟨m', hm', hr⟩ := ih req h
            exact ⟨m', List.mem_cons_of_mem m hm', hr⟩
        · rw [Bool.not_eq_true] at hj
          simp only [probe, hm, if_true, hc, hj, Bool.false_eq_true, if_false,
            List.mem_singleton] at h
          exact ⟨m, List.mem_cons_self m ms, h⟩
    · rw [Bool.not_eq_true] at hm
      simp only [probe, hm, Bool.false_eq_true, if_false] at h
      obtain ⟨m', hm', hr⟩ := ih req h
      exact ⟨m', List.mem_cons_of_mem m hm', hr⟩

/-- A reply makes the loop move on exactly when it is a dict whose `error`
is a dict carrying `code = -32601` (such an `error` value is nonempty,
hence truthy). -/
theorem isMethodNotFound_iff (j : Json) :
    isMethodNotFound j = true ↔
      ∃ fs e, j = .obj fs ∧ fs.lookup "error" = some e ∧
        ∃ efs, e = .obj efs ∧ efs.lookup "code" = some (.num (-32601)) := by
  cases j with
  | obj fs =>
    cases he : fs.lookup "error" with
    | none => simp [isMethodNotFound, he]
    | some e =>
      cases e with
      | obj efs =>
        cases hc : efs.lookup "code" with
        | none => simp [isMethodNotFound, he, hc]
        | some c =>
          cases c with
          | num q =>
            by_cases hq : q = -32601
            · subst hq
              have hne : efs ≠ [] := by
                intro hnil; rw [hnil] at hc; simp [List.lookup] at hc
              simp [isMethodNotFound, he, hc, pyTruthy, hne]
            · simp [isMethodNotFound, he, hc, hq]
          | null => simp [isMethodNotFound, he, hc]
          | bool b => simp [isMethodNotFound, he, hc]
          | str s => simp [isMethodNotFound, he, hc]
          | arr xs => simp [isMethodNotFound, he, hc]
          | obj gs => simp [isMethodNotFound, he, hc]
      | null => simp [isMethodNotFound, he]
      | bool b => simp [isMethodNotFound, he]
      | num q => simp [isMethodNotFound, he]
      | str s => simp [isMethodNotFound, he]
      | arr xs => simp [isMethodNotFound, he]
  | null => simp [isMethodNotFound]
  | bool b => simp [isMethodNotFound]
  | num q => simp [isMethodNotFound]
  | str s => simp [isMethodNotFound]
  | arr xs => simp [isMethodNotFound]

/-- Truthiness-filtering the rendered candidate sources is discarding the
absent and empty ones. -/
theorem filter_truthy_optJson (l : List (Option String)) :
    (l.map optJson).filter pyTruthy
      = ((l.flatMap Option.toList).filter (fun s => s ≠ "")).map Json.str := by
  induction l with
  | nil => rfl
  | cons o l ih =>
    cases o with
    | none => simpa [optJson, pyTruthy] using ih
    | some s =>
      by_cases hs : s = ""
      · subst hs; simpa [optJson, pyTruthy] using ih
      · simp [optJson, pyTruthy, hs, ih]

theorem skillCandidates_toJson (s : SkillRef) :
    skillCandidates s.toJson
      = (match s with
         | .bare t => [Json.str t]
         | .record n i => [optJson n, optJson i]) := by
  cases s with
  | bare t => rfl
  | record n i =>
    cases n <;> cases i <;> simp [SkillRef.toJson, skillCandidates, optJson, List.lookup]

theorem pyIter_skills (xs : List Json) :
    pyIter (if pyTruthy (.arr xs) then .arr xs else .arr []) = .ok xs := by
  cases xs <;> simp [pyTruthy, pyIter]

/-- On a well-typed descriptor, the code's candidate derivation reduces to
filtering and de-duplicating the rendered candidate sources. -/
theorem buildCandidates_toJson (d : Descriptor) :
    buildCandidates d.toJson
      = dedupeSeen [] (((optCandidates d).map optJson).filter pyTruthy) := by
  rcases d with ⟨pt, nm, skills⟩
  have hflat : (skills.map SkillRef.toJson).flatMap skillCandidates
      = List.map optJson (skills.flatMap fun s =>
          match s with
          | SkillRef.bare t => [some t]
          | SkillRef.record n i => [n, i]) := by
    induction skills with
    | nil => rfl
    | cons s ss ih =>
      cases s with
      | bare t => simp [List.flatMap_cons, skillCandidates_toJson, ih, optJson]
      | record n i => simp [List.flatMap_cons, skillCandidates_toJson, ih, optJson]
  cases pt <;> cases nm <;>
    simp [buildCandidates, Descriptor.toJson, pyGet, pyGetD, List.lookup,
      exceptOkBind, pyIter_skills, hflat, optCandidates, optJson,
      List.map_cons]

theorem anyEqStr (a : String) : ∀ seen : List String,
    ((seen.map Json.str).any (pyEqHashable (Json.str a))) = decide (a ∈ seen) := by
  intro seen
  induction seen with
  | nil => rfl
  | cons b bs ih =>
    by_cases hab : a = b
    · subst hab
      simp [pyEqHashable, List.mem_cons]
    · simp [pyEqHashable, hab, ih, List.mem_cons]

/-- On string candidates the code's `set`-based dedup never raises and
keeps exactly the first occurrences. -/
theorem dedupeSeen_strings :
    ∀ (l seen : List String),
      dedupeSeen (seen.map Json.str) (l.map Json.str)
        = .ok ((firstDedupAux seen l).map Json.str) := by
  intro l
  induction l with
  | nil => intro seen; rfl
  | cons a l ih =>
    intro seen
    by_cases ha : a ∈ seen
    · rw [List.map_cons, dedupeSeen]
      rw [if_neg (by simp [pyHashable])]
      rw [if_pos (by rw [anyEqStr]; simp [ha])]
      rw [firstDedupAux, if_pos ha]
      exact ih seen
    · rw [List.map_cons, dedupeSeen]
      rw [if_neg (by simp [pyHashable])]
      rw [if_neg (by rw [anyEqStr]; simp [ha])]
      rw [firstDedupAux, if_neg ha]
      have hrec := ih (a :: seen)
      rw [List.map_cons] at hrec
      rw [hrec, List.map_cons]
      rfl

theorem firstDedupAux_nodup :
    ∀ (l seen : List String),
      (firstDedupAux seen l).Nodup ∧ ∀ x ∈ firstDedupAux seen l, x ∉ seen := by
  intro l
  induction l with
  | nil => intro seen; exact ⟨List.nodup_nil, by simp [firstDedupAux]⟩
  | cons a l ih =>
    intro seen
    by_cases ha : a ∈ seen
    · rw [firstDedupAux, if_pos ha]; exact ih seen
    · rw [firstDedupAux, if_neg ha]
      obtain ⟨hnd, hnotin⟩ := ih (a :: seen)
      refine ⟨List.nodup_cons.mpr ⟨?_, hnd⟩, ?_⟩
      · intro hmem
        exact hnotin a hmem (List.mem_cons_self a seen)
      · intro x hx
        rcases List.mem_cons.mp hx with rfl | hx'
        · exact ha
        · intro hxseen
          exact hnotin x hx' (List.mem_cons_of_mem a hxseen)

theorem firstDedupAux_subset :
    ∀ (l seen : List String) (x : String), x ∈ firstDedupAux seen l → x ∈ l := by
  intro l
  induction l with
  | nil => intro seen x h; simp [firstDedupAux] at h
  | cons a l ih =>
    intro seen x h
    by_cases ha : a ∈ seen
    · rw [firstDedupAux, if_pos ha] at h
      exact List.mem_cons_of_mem a (ih seen x h)
    · rw [firstDedupAux, if_neg ha] at h
      rcases List.mem_cons.mp h with h0 | h'
      · rw [h0]; exact List.mem_cons_self a l
      · exact List.mem_cons_of_mem a (ih (a :: seen) x h')

/-! The claims -/

/-- Claim C1: during JSON-RPC probing the candidates are taken in list
order; for each candidate, a transport-level failure (`requests` exception,
4xx/5xx status, or undecodable body — `call_jsonrpc` returning `None`)
moves to the next candidate, a parsed reply whose `error.code` is `-32601`
moves to the next candidate, and any other reply — a success or an error
with any other code — is accepted at once as the final raw result: the
probe trace stops at this candidate and the full run returns the reply
without any later candidate or `/invoke` POST. -/
theorem probing_per_candidate (net : Network) (ticker : String) (m : Json) (ms : List Json)
    (hm : pyTruthy m = true) :
    (call_jsonrpc net m = none →
      probe net ticker (m :: ms)
        = (rpcRequest m ticker :: (probe net ticker ms).1, (probe net ticker ms).2))
    ∧ (∀ j, call_jsonrpc net m = some j →
        ((isMethodNotFound j = true →
          probe net ticker (m :: ms)
            = (rpcRequest m ticker :: (probe net ticker ms).1, (probe net ticker ms).2))
        ∧ (isMethodNotFound j = false →
          probe net ticker (m :: ms) = ([rpcRequest m ticker], some j))))
    ∧ (∀ j, isMethodNotFound j = true ↔
        ∃ fs e, j = .obj fs ∧ fs.lookup "error" = some e ∧
          ∃ efs, e = .obj efs ∧ efs.lookup "code" = some (.num (-32601)))
    ∧ (∀ cands j, decideRoute (fetchAgentCard net) = .ok (some cands) →
        (probe net ticker cands).2 = some j →
        get_stock_prediction net ticker
          = (cardRequest :: (probe net ticker cands).1, .ok (some (.inl j)))
        ∧ ∀ p, Request.post invokeUrl p ∉ (get_stock_prediction net ticker).1) := by
  refine ⟨?_, ?_, isMethodNotFound_iff, ?_⟩
  · intro hc
    simp [probe, hm, hc]
  · intro j hc
    refine ⟨fun hj => ?_, fun hj => ?_⟩
    · simp [probe, hm, hc, hj]
    · simp [probe, hm, hc, hj]
  · intro cands j hroute hacc
    have hrun : get_stock_prediction net ticker
        = (cardRequest :: (probe net ticker cands).1, .ok (some (.inl j))) := by
      simp only [get_stock_prediction, hroute, hacc]
    refine ⟨hrun, ?_⟩
    intro p hp
    rw [hrun] at hp
    rcases List.mem_cons.mp hp with h | h
    · exact Request.noConfusion h
    · obtain ⟨m', _, hr⟩ := probe_trace_mem net ticker cands _ h
      rw [rpcRequest] at hr
      have hurl : invokeUrl = rpcUrl := by injection hr
      exact rpcUrl_ne_invokeUrl hurl.symm

/-- Witness for C1: in the world `netA`, candidate `"model"` answers
`-32601`, so probing one-steps to the remaining candidates. -/
theorem probing_per_candidate_witness :
    probe netA "TNA" [Json.str "model", Json.str "short_term_predict"]
      = (rpcRequest (.str "model") "TNA"
          :: (probe netA "TNA" [Json.str "short_term_predict"]).1,
         (probe netA "TNA" [Json.str "short_term_predict"]).2) :=
  ((probing_per_candidate netA "TNA" (.str "model") [.str "short_term_predict"]
      (by decide)).2.1 notFoundReply rfl).1 (by decide)

/-- Claim C2: on every well-typed capability descriptor the code's derived
candidate list is exactly the claim's MethodCandidateList — the sequence
`"model"`, descriptor name, then each skill's name and id in order, empty
entries discarded, duplicates removed keeping the first occurrence — and
that list preserves first-seen order, has no duplicate or empty entry, and
starts with `"model"`. -/
theorem method_candidate_list (d : Descriptor) :
    buildCandidates d.toJson = .ok ((specCandidates d).map Json.str)
    ∧ (specCandidates d).Nodup
    ∧ (∀ s ∈ specCandidates d, s ≠ "")
    ∧ (specCandidates d).head? = some "model" := by
  refine ⟨?_, (firstDedupAux_nodup _ _).1, ?_, ?_⟩
  · rw [buildCandidates_toJson, filter_truthy_optJson]
    have h := dedupeSeen_strings
      (((optCandidates d).flatMap Option.toList).filter (fun s => s ≠ "")) []
    simpa [specCandidates, specRawCandidates] using h
  · intro s hs
    have hmem := firstDedupAux_subset _ [] s hs
    have hp := List.of_mem_filter hmem
    exact of_decide_eq_true hp
  · have hrest : specRawCandidates d
        = "model" :: ((d.nm :: (d.skills.flatMap fun s =>
            match s with
            | SkillRef.bare t => [some t]
            | SkillRef.record n i => [n, i])).flatMap Option.toList) := by
      simp [specRawCandidates, optCandidates]
    rw [specCandidates, hrest]
    rw [List.filter_cons, if_pos (by decide)]
    rw [firstDedupAux, if_neg (List.not_mem_nil _)]
    rfl

/-- Witness for C2: the derivation on the §8 scenario descriptor, and one
discharged no-empty-entry instance. -/
theorem method_candidate_list_witness :
    buildCandidates (Descriptor.toJson ⟨some "jsonrpc", some "forecaster",
        [.bare "short_term_predict", .record (some "short_term_predict") (some "stp")]⟩)
      = .ok ((specCandidates ⟨some "jsonrpc", some "forecaster",
          [.bare "short_term_predict", .record (some "short_term_predict") (some "stp")]⟩).map
            Json.str)
    ∧ "forecaster" ≠ "" :=
  ⟨(method_candidate_list _).1,
   (method_candidate_list ⟨some "jsonrpc", some "forecaster",
      [.bare "short_term_predict", .record (some "short_term_predict") (some "stp")]⟩).2.2.1
     "forecaster" (by decide)⟩

/-- Counterexample to C3 as stated: this card's `preferredTransport` is the
number `1` — which does not equal `"JSONRPC"` under any comparison — yet
the client does not go to `/invoke`: the trace stops at the card GET and an
uncaught AttributeError (from `.upper()` on a non-string) aborts the
call. -/
theorem transport_gate_counterexample :
    fetchAgentCard netPtNum = some (.obj [("preferredTransport", .num 1)])
    ∧ (get_stock_prediction netPtNum "TNA").1 = [cardRequest]
    ∧ (get_stock_prediction netPtNum "TNA").2 = .error .attributeError :=
  ⟨rfl, rfl, rfl⟩

/-- Claim C3 (amended): whenever discovery fails, or the obtained
descriptor is falsy, or it is an object whose `preferredTransport` is
absent or is a string that does not upper-case to `"JSONRPC"`, the client
issues no JSON-RPC POST and goes directly to the `/invoke` POST. -/
theorem transport_gate (net : Network) (ticker : String)
    (h : fetchAgentCard net = none
      ∨ ∃ card, fetchAgentCard net = some card ∧
          (pyTruthy card = false
           ∨ ∃ fs, card = .obj fs ∧
               (fs.lookup "preferredTransport" = none
                ∨ ∃ s, fs.lookup "preferredTransport" = some (.str s)
                    ∧ strUpper s ≠ "JSONRPC"))) :
    get_stock_prediction net ticker = ([cardRequest, invokeRequest ticker], .ok (callInvoke net))
    ∧ ∀ p, Request.post rpcUrl p ∉ (get_stock_prediction net ticker).1 := by
  have hroute : decideRoute (fetchAgentCard net) = .ok none := by
    rcases h with h | ⟨card, hcard, h⟩
    · rw [h]; rfl
    · rw [hcard]
      rcases h with h | ⟨fs, rfl, h⟩
      · simp [decideRoute, h]
      · by_cases ht : pyTruthy (.obj fs) = true
        · rcases h with h | ⟨s, h, hs⟩
          · simp only [decideRoute, ht, if_true, pyGetD, pyGet, pyUpper, h,
              Option.getD_none, exceptOkBind]
            rw [if_neg (by decide)]
          · simp only [decideRoute, ht, if_true, pyGetD, pyGet, pyUpper, h,
              Option.getD_some, exceptOkBind]
            rw [if_neg hs]
        · rw [Bool.not_eq_true] at ht
          simp [decideRoute, ht]
  have hrun : get_stock_prediction net ticker
      = ([cardRequest, invokeRequest ticker], .ok (callInvoke net)) := by
    simp only [get_stock_prediction, hroute]
  refine ⟨hrun, ?_⟩
  intro p hp
  rw [hrun] at hp
  rcases List.mem_cons.mp hp with h' | h'
  · exact Request.noConfusion h'
  · rcases List.mem_singleton.mp h' with h''
    have hurl : rpcUrl = invokeUrl := by injection h''
    exact rpcUrl_ne_invokeUrl hurl

/-- Witness for C3 (amended): a dead discovery endpoint sends the client
straight to `/invoke`. -/
theorem transport_gate_witness :
    get_stock_prediction netDead "TNA"
      = ([cardRequest, invokeRequest "TNA"], .ok (callInvoke netDead))
    ∧ ∀ p, Request.post rpcUrl p ∉ (get_stock_prediction netDead "TNA").1 :=
  transport_gate netDead "TNA" (Or.inl rfl)

/-- Claim C4: normalization unwraps the `result` sub-value, else the
`output` sub-value, else returns the mapping (or any non-mapping raw
result) unchanged; in particular a payload wrapping `result` around the
date-price map normalizes to exactly that map. -/
theorem normalize_result (fs : List (String × Json)) :
    (∀ v, fs.lookup "result" = some v → normalizeRaw (.inl (.obj fs)) = .inl v)
    ∧ (fs.lookup "result" = none → ∀ v, fs.lookup "output" = some v →
        normalizeRaw (.inl (.obj fs)) = .inl v)
    ∧ (fs.lookup "result" = none → fs.lookup "output" = none →
        normalizeRaw (.inl (.obj fs)) = .inl (.obj fs))
    ∧ (∀ r : RawResult, (∀ gs, r ≠ .inl (.obj gs)) → normalizeRaw r = r)
    ∧ normalizeRaw (.inl (.obj [("result", .obj [("2024-01-02", .num 101.5)])]))
        = .inl (.obj [("2024-01-02", .num 101.5)]) := by
  refine ⟨?_, ?_, ?_, ?_, rfl⟩
  · intro v hv; simp [normalizeRaw, hv]
  · intro h0 v hv; simp [normalizeRaw, h0, hv]
  · intro h0 h1; simp [normalizeRaw, h0, h1]
  · intro r hr
    match r with
    | .inr s => rfl
    | .inl .null => rfl
    | .inl (.bool b) => rfl
    | .inl (.num q) => rfl
    | .inl (.str s) => rfl
    | .inl (.arr xs) => rfl
    | .inl (.obj gs) => exact absurd rfl (hr gs)

/-- Witness for C4: one discharged `result`-unwrapping instance. -/
theorem normalize_result_witness :
    normalizeRaw (.inl (.obj [("result", .num 2)])) = .inl (.num 2) :=
  (normalize_result _).1 (.num 2) rfl

/-- Counterexample to C5 as stated: a 304 reply — a non-2xx status other
than 404 — does not become an absent result: `raise_for_status` only
raises for 400-599, so its JSON body is kept. -/
theorem invoke_status_counterexample :
    net304.invoke = .resp ⟨304, some (.obj [("a", .num 1)]), "not-json-text"⟩
    ∧ (304 < 200 ∨ 300 ≤ 304)
    ∧ 304 ≠ 404
    ∧ callInvoke net304 = some (.inl (.obj [("a", .num 1)])) :=
  ⟨rfl, by decide, by decide, rfl⟩

/-- Claim C5 (amended): for the `/invoke` POST, a request exception yields
an absent result; a 404 yields an absent result; any other 4xx/5xx status
yields an absent result via the caught request error; and a reply with any
status outside 400-599 yields its decoded JSON body, or its raw text when
the body is not valid JSON. -/
theorem invoke_endpoint_behavior (net : Network) :
    (net.invoke = .exn → callInvoke net = none)
    ∧ (∀ r, net.invoke = .resp r →
        ((r.status = 404 → callInvoke net = none)
         ∧ (400 ≤ r.status → r.status < 600 → callInvoke net = none)
         ∧ (¬(400 ≤ r.status ∧ r.status < 600) →
             ((∀ j, r.body = some j → callInvoke net = some (.inl j))
              ∧ (r.body = none → callInvoke net = some (.inr r.text)))))) := by
  constructor
  · intro h; simp [callInvoke, h]
  · intro r hr
    refine ⟨?_, ?_, ?_⟩
    · intro h404; simp [callInvoke, hr, h404]
    · intro h1 h2
      by_cases h404 : r.status = 404
      · simp [callInvoke, hr, h404]
      · simp [callInvoke, hr, h404, raisesForStatus, h1, h2]
    · intro hn
      have h404 : ¬ (r.status = 404) := fun h => hn (by omega)
      have hrs : raisesForStatus r.status = false := by
        simp only [raisesForStatus, decide_eq_false_iff_not]; exact hn
      refine ⟨?_, ?_⟩
      · intro j hj; simp [callInvoke, hr, h404, hrs, hj]
      · intro hb; simp [callInvoke, hr, h404, hrs, hb]

/-- Witness for C5 (amended): a raised request exception becomes an absent
result. -/
theorem invoke_endpoint_behavior_witness :
    callInvoke netDead = none :=
  (invoke_endpoint_behavior netDead).1 rfl

/-- Claim C6: exhausting every JSON-RPC candidate without acceptance leads
to the same `POST {action, kwargs}` request to `/invoke` — and the same
result function of the network — as a run in which JSON-RPC was never
preferred. -/
theorem exhaustion_same_fallback (net net2 : Network) (ticker : String) (cands : List Json)
    (h : decideRoute (fetchAgentCard net) = .ok (some cands))
    (hex : (probe net ticker cands).2 = none)
    (h2 : decideRoute (fetchAgentCard net2) = .ok none) :
    get_stock_prediction net ticker
      = (cardRequest :: ((probe net ticker cands).1 ++ [invokeRequest ticker]),
         .ok (callInvoke net))
    ∧ get_stock_prediction net2 ticker
      = ([cardRequest, invokeRequest ticker], .ok (callInvoke net2)) := by
  constructor
  · simp only [get_stock_prediction, h, hex]
  · simp only [get_stock_prediction, h2]

/-- Witness for C6: `netExhaust` probes all four candidates in vain and
then falls back to the very `/invoke` POST the JSON-RPC-free `netDead` run
issues. -/
theorem exhaustion_same_fallback_witness :
    get_stock_prediction netExhaust "TNA"
      = (cardRequest :: ((probe netExhaust "TNA"
            [.str "model", .str "forecaster", .str "short_term_predict", .str "stp"]).1
          ++ [invokeRequest "TNA"]),
         .ok (callInvoke netExhaust))
    ∧ get_stock_prediction netDead "TNA"
      = ([cardRequest, invokeRequest "TNA"], .ok (callInvoke netDead)) :=
  exhaustion_same_fallback netExhaust netDead "TNA"
    [.str "model", .str "forecaster", .str "short_term_predict", .str "stp"] rfl rfl rfl

/-- Claim C7: when the route yields no JSON-RPC acceptance (discovery
absent or unusable, or every candidate exhausted) and the `/invoke`
attempt yields an absent result, the invocation ends in the structured
outcome `Failure(Unavailable, "no usable response")` — not an exception. -/
theorem unavailable_failure (net : Network) (ticker : String)
    (hinv : callInvoke net = none)
    (hroute : decideRoute (fetchAgentCard net) = .ok none
      ∨ ∃ cands, decideRoute (fetchAgentCard net) = .ok (some cands)
          ∧ (probe net ticker cands).2 = none) :
    (invocationOutcome net ticker).2 = .ok (.failure .unavailable "no usable response") := by
  rcases hroute with h | ⟨cands, h, hex⟩
  · simp only [invocationOutcome, get_stock_prediction, h, hinv]
    rfl
  · simp only [invocationOutcome, get_stock_prediction, h, hex, hinv]
    rfl

/-- Witness for C7: the all-dead world yields the `Unavailable` failure. -/
theorem unavailable_failure_witness :
    (invocationOutcome netDead "TNA").2
      = .ok (.failure .unavailable "no usable response") :=
  unavailable_failure netDead "TNA" rfl (Or.inl rfl)

/-- Counterexample to C8 as stated: a 200 discovery reply whose descriptor
is `{preferredTransport: null}` makes the invocation abort with an uncaught
AttributeError (`None.upper()`), not a structured outcome. -/
theorem no_uncaught_exception_counterexample :
    fetchAgentCard netPtNull = some (.obj [("preferredTransport", .null)])
    ∧ (get_stock_prediction netPtNull "TNA").2 = .error .attributeError :=
  ⟨rfl, rfl⟩

/-- Claim C8 (amended): the invocation returns a structured outcome for
every network behaviour except exactly those descriptors on which the
routing/candidate-derivation phase raises (truthy non-dict descriptors,
non-string `preferredTransport`, non-iterable truthy `skills`, unhashable
truthy candidates): the run aborts with a Python exception precisely when
`decideRoute` does. -/
theorem structured_outcome_vs_route (net : Network) (ticker : String) (e : PyExn) :
    (get_stock_prediction net ticker).2 = .error e
      ↔ decideRoute (fetchAgentCard net) = .error e := by
  cases hroute : decideRoute (fetchAgentCard net) with
  | error e2 =>
    simp only [get_stock_prediction, hroute]
    simp
  | ok r =>
    cases r with
    | none => simp only [get_stock_prediction, hroute]; simp
    | some cands =>
      cases hp : (probe net ticker cands).2 with
      | some j => simp only [get_stock_prediction, hroute, hp]; simp
      | none => simp only [get_stock_prediction, hroute, hp]; simp

/-- Witness for C8 (amended): in a world whose routing phase does not
raise, the run is error-free. -/
theorem structured_outcome_vs_route_witness :
    ¬ ((get_stock_prediction netA "GOOG").2 = .error .attributeError) := by
  intro h
  have h2 := (structured_outcome_vs_route netA "GOOG" .attributeError).mp h
  rw [show decideRoute (fetchAgentCard netA)
      = Except.ok (some [Json.str "model", Json.str "forecaster",
          Json.str "short_term_predict", Json.str "stp"]) from rfl] at h2
  exact Except.noConfusion h2

/-- Claim C9: every JSON-RPC probe POSTed to the base address carries the
envelope `{jsonrpc: "2.0", method: candidate, params: {tool_inputs:
{short_term_predict: {ticker}}}, id: 1}`, every `/invoke` POST of the
client carries the flat `{action: "short_term_predict", kwargs: {ticker}}`,
and every `/invoke` POST of the tool carries the flat payload with the
upper-cased ticker — the per-transport nesting asymmetry is exact. -/
theorem request_shapes (net : Network) (ticker : String) :
    (∀ req ∈ (get_stock_prediction net ticker).1,
      req = cardRequest
      ∨ (∃ m, req = .post rpcUrl (.obj [("jsonrpc", .str "2.0"), ("method", m),
            ("params", .obj [("tool_inputs",
              .obj [("short_term_predict", .obj [("ticker", .str ticker)])])]),
            ("id", .num 1)]))
      ∨ req = .post invokeUrl (.obj [("action", .str "short_term_predict"),
            ("kwargs", .obj [("ticker", .str ticker)])]))
    ∧ (∀ (tnet : ToolPostOutcome) (t : String),
        ∀ req ∈ (get_a2a_short_term_prediction tnet (.str t)).1,
          req = .post toolUrl (.obj [("action", .str "short_term_predict"),
            ("kwargs", .obj [("ticker", .str (strUpper t))])])) := by
  constructor
  · intro req hreq
    cases hroute : decideRoute (fetchAgentCard net) with
    | error e =>
      simp only [get_stock_prediction, hroute, List.mem_singleton] at hreq
      exact Or.inl hreq
    | ok r =>
      cases r with
      | none =>
        simp only [get_stock_prediction, hroute, List.mem_cons,
          List.mem_singleton, List.not_mem_nil, or_false] at hreq
        rcases hreq with h | h
        · exact Or.inl h
        · exact Or.inr (Or.inr (by rw [h]; rfl))
      | some cands =>
        cases hp : (probe net ticker cands).2 with
        | some j =>
          simp only [get_stock_prediction, hroute, hp, List.mem_cons] at hreq
          rcases hreq with h | h
          · exact Or.inl h
          · obtain ⟨m, _, hr⟩ := probe_trace_mem net ticker cands req h
            exact Or.inr (Or.inl ⟨m, by rw [hr]; rfl⟩)
        | none =>
          simp only [get_stock_prediction, hroute, hp, List.mem_cons,
            List.mem_append, List.mem_singleton, List.not_mem_nil, or_false] at hreq
          rcases hreq with h | h | h
          · exact Or.inl h
          · obtain ⟨m, _, hr⟩ := probe_trace_mem net ticker cands req h
            exact Or.inr (Or.inl ⟨m, by rw [hr]; rfl⟩)
          · exact Or.inr (Or.inr (by rw [h]; rfl))
  · intro tnet t req hreq
    by_cases ht : pyTruthy (.str t) = false
    · simp only [get_a2a_short_term_prediction, ht, if_true, List.not_mem_nil] at hreq
    · simp only [get_a2a_short_term_prediction, if_neg ht, List.mem_singleton] at hreq
      rw [hreq]; rfl

/-- Witness for C9: the discovery GET of a concrete run is among the three
allowed request shapes. -/
theorem request_shapes_witness :
    cardRequest = cardRequest
    ∨ (∃ m, cardRequest = .post rpcUrl (.obj [("jsonrpc", .str "2.0"), ("method", m),
          ("params", .obj [("tool_inputs",
            .obj [("short_term_predict", .obj [("ticker", .str "TNA")])])]),
          ("id", .num 1)]))
    ∨ cardRequest = .post invokeUrl (.obj [("action", .str "short_term_predict"),
          ("kwargs", .obj [("ticker", .str "TNA")])]) :=
  (request_shapes netDead "TNA").1 cardRequest (List.mem_cons_self _ _)

/-- Claim C10: a falsy or non-string ticker makes the tool return the
error mapping with no HTTP request at all, and a non-empty string ticker
makes it issue exactly one `/invoke` POST whose kwargs carry the
upper-cased ticker. -/
theorem tool_ticker_guard (net : ToolPostOutcome) (t : Json) :
    ((pyTruthy t = false ∨ ∀ s, t ≠ .str s) →
      get_a2a_short_term_prediction net t
        = ([], .ok (.obj [("error",
            .str "Invalid ticker provided. Must be a non-empty string.")])))
    ∧ (∀ s, s ≠ "" →
        (get_a2a_short_term_prediction net (.str s)).1
          = [.post toolUrl (.obj [("action", .str "short_term_predict"),
              ("kwargs", .obj [("ticker", .str (strUpper s))])])]) := by
  constructor
  · intro h
    by_cases ht : pyTruthy t = false
    · simp [get_a2a_short_term_prediction, ht, invalidTickerMsg]
    · rcases h with h | h
      · exact absurd h ht
      · cases t with
        | str s => exact absurd rfl (h s)
        | null => simp [pyTruthy] at ht
        | bool b => simp only [get_a2a_short_term_prediction, if_neg ht]; rfl
        | num q => simp only [get_a2a_short_term_prediction, if_neg ht]; rfl
        | arr xs => simp only [get_a2a_short_term_prediction, if_neg ht]; rfl
        | obj fs => simp only [get_a2a_short_term_prediction, if_neg ht]; rfl
  · intro s hs
    have ht : ¬ (pyTruthy (.str s) = false) := by simp [pyTruthy, hs]
    simp only [get_a2a_short_term_prediction, if_neg ht]
    rfl

/-- Witness for C10: `None` is rejected with the error mapping and no
request, while `"nvda"` is sent upper-cased. -/
theorem tool_ticker_guard_witness :
    get_a2a_short_term_prediction .connectionError .null
      = ([], .ok (.obj [("error",
          .str "Invalid ticker provided. Must be a non-empty string.")]))
    ∧ (get_a2a_short_term_prediction .connectionError (.str "nvda")).1
      = [.post toolUrl (.obj [("action", .str "short_term_predict"),
          ("kwargs", .obj [("ticker", .str (strUpper "nvda"))])])] :=
  ⟨(tool_ticker_guard .connectionError .null).1 (Or.inl rfl),
   (tool_ticker_guard .connectionError (.str "nvda")).2 "nvda" (by decide)⟩
